import Mathlib

/-!
Verification of the EDA web app (`src/eda_app.py`) against its
natural-language specification.

The app is a single-script pipeline: an uploaded byte stream is parsed as
delimited text under a cascade of character encodings (falling back to
spreadsheet parsing), the resulting table is profiled (shape, summary
statistics, per-column missing counts, duplicate rows), charts are drawn for
numeric and categorical columns, and a PDF report is assembled as an ordered
list of blocks (paragraphs, spacers, tables, images).

The embedding below models the table as a header plus a list of rows of
optional string cells (`none` is a null/NaN cell), the pandas operations the
script uses (`duplicated`, `isnull().sum()`, `describe`, `read_csv` with
`on_bad_lines="skip"`) as executable Lean functions, and the report builder
`create_pdf` as a function producing the ordered list of blocks. Floating
point statistic *values* (means, quartiles, ...) are abstracted: the model
records which columns and which statistic names appear, which is all the
layout-level properties need.
-/

namespace EdaApp

/-- Inferred semantic type of a column, as pandas dtype classes relevant to
the script: `numeric` matches `select_dtypes(include=['number'])`,
`categorical` matches `select_dtypes(include=['object', 'category'])`,
`other` covers the remaining dtypes (bool, datetime, ...). -/
inductive Dtype where
  | numeric
  | categorical
  | other
deriving DecidableEq, Repr

/-- A cell of the table: `none` is a null/NaN cell. -/
abbrev Cell := Option String

/-- The loaded table (`df` in the script): named columns with inferred
dtypes, and rows of cells. -/
structure DataFrame where
  header : List String
  dtypes : List Dtype
  rows : List (List Cell)
deriving DecidableEq, Repr

/-- `df.select_dtypes(include=['number']).columns.tolist()` (line 72). -/
def numericCols (df : DataFrame) : List String :=
  (df.header.zip df.dtypes).filterMap
    (fun p => if p.2 = Dtype.numeric then some p.1 else none)

/-- `df.select_dtypes(include=['object', 'category']).columns.tolist()`
(line 83). -/
def catCols (df : DataFrame) : List String :=
  (df.header.zip df.dtypes).filterMap
    (fun p => if p.2 = Dtype.categorical then some p.1 else none)

/-- Worker for `duplicatedFlags`: `seen` is the list of rows already
passed.  A row is flagged `true` iff it equals one of the rows before it
(pandas `duplicated(keep='first')`; pandas compares NaN equal to NaN here,
matching `none = none`). -/
def duplicatedAux (seen : List (List Cell)) : List (List Cell) → List Bool
  | [] => []
  | r :: rs => (decide (r ∈ seen)) :: duplicatedAux (r :: seen) rs

/-- `df.duplicated()` (line 64): one Boolean per row, `true` iff the row is
an exact repeat of an earlier row. -/
def duplicatedFlags (rows : List (List Cell)) : List Bool :=
  duplicatedAux [] rows

/-- `duplicate_count = df.duplicated().sum()` (line 64). -/
def duplicateCount (df : DataFrame) : Nat :=
  (duplicatedFlags df.rows).count true

/-- `df[df.duplicated()]` (lines 68, 151): the rows flagged as duplicates,
in order. -/
def dupRows (df : DataFrame) : List (List Cell) :=
  ((df.rows).zip (duplicatedFlags df.rows)).filterMap
    (fun p => if p.2 then some p.1 else none)

/-- Number of null cells in column `j`, one summand of
`missing = df.isnull().sum()` (line 59). -/
def missingInColumn (df : DataFrame) (j : Nat) : Nat :=
  (df.rows.map (fun r => (r.get? j).getD none)).countP (fun c => c.isNone)

/-- `missing = df.isnull().sum()` (line 59): per-column null-cell counts,
keyed by column name in column order. -/
def missingCounts (df : DataFrame) : List (String × Nat) :=
  df.header.enum.map (fun p => (p.2, missingInColumn df p.1))

/-! ### CSV parsing (`pd.read_csv(..., on_bad_lines="skip")`, line 30)

Modelled for unquoted comma-separated text: split into lines, first line is
the header, a data line with more fields than the header is a "bad line"
and is skipped (`on_bad_lines="skip"`), a line with fewer fields is padded
with nulls, empty fields and blank padding are null cells, blank lines are
skipped (`skip_blank_lines=True` default), an input with no lines at all
raises `EmptyDataError` (modelled as `none`). -/

/-- Split a character list at every occurrence of `c` (the accumulator holds
the current field reversed). -/
def splitCharAux (c : Char) : List Char → List Char → List (List Char)
  | [], acc => [acc.reverse]
  | x :: xs, acc =>
      if x = c then acc.reverse :: splitCharAux c xs []
      else splitCharAux c xs (x :: acc)

/-- Split a string at every occurrence of the character `c`. -/
def splitChar (c : Char) (s : String) : List String :=
  (splitCharAux c s.data []).map List.asString

/-- The comma-separated fields of one line. -/
def splitFields (line : String) : List String := splitChar ',' line

/-- An empty field is a null cell. -/
def parseCell (s : String) : Cell := if s = "" then none else some s

/-- Parse one data line against a header of `ncols` columns: skipped
(`none`) when it has more fields than the header, otherwise padded with
null cells up to `ncols`. -/
def parseRow (ncols : Nat) (line : String) : Option (List Cell) :=
  let fs := splitFields line
  if ncols < fs.length then none
  else some (fs.map parseCell ++ List.replicate (ncols - fs.length) none)

/-- All data rows of the table: bad lines skipped, the rest parsed. -/
def parsedRows (ncols : Nat) (lines : List String) : List (List Cell) :=
  lines.filterMap (parseRow ncols)

/-- Is a string entirely made of digits (a simple stand-in for pandas
numeric dtype inference)? -/
def isNumericString (s : String) : Bool :=
  s ≠ "" && s.data.all Char.isDigit

/-- Infer a column's dtype: numeric when every non-null cell is numeric
text and at least one cell exists, else categorical (object). -/
def inferDtype (cells : List Cell) : Dtype :=
  if cells.all (fun c => (c.map isNumericString).getD true) then
    Dtype.numeric
  else Dtype.categorical

/-- `pd.read_csv` on decoded text (line 30): header from the first
non-blank line, bad data lines skipped, dtypes inferred per column. -/
def readCSVString (s : String) : Option DataFrame :=
  match (splitChar '\n' s).filter (fun l => l ≠ "") with
  | [] => none
  | h :: rest =>
      let header := splitFields h
      let rows := parsedRows header.length rest
      some { header := header
             dtypes := (List.range header.length).map
               (fun j => inferDtype (rows.map (fun r => (r.get? j).getD none)))
             rows := rows }

/-! ### The encoding cascade and Excel fallback (lines 27–45) -/

/-- The character encodings the script knows, matching
`encodings_to_try = ["utf-8", "utf-8-sig", "latin1", "ISO-8859-1", "cp1252"]`
(line 27). -/
inductive Encoding where
  | utf8
  | utf8sig
  | latin1
  | iso8859_1
  | cp1252
deriving DecidableEq, Repr

/-- The Python codec name of each encoding, as spelled in the script. -/
def encName : Encoding → String
  | Encoding.utf8 => "utf-8"
  | Encoding.utf8sig => "utf-8-sig"
  | Encoding.latin1 => "latin1"
  | Encoding.iso8859_1 => "ISO-8859-1"
  | Encoding.cp1252 => "cp1252"

/-- `encodings_to_try` (line 27), in source order. -/
def encodingsToTry : List Encoding :=
  [Encoding.utf8, Encoding.utf8sig, Encoding.latin1,
   Encoding.iso8859_1, Encoding.cp1252]

/-- The `for enc in encodings_to_try` loop (lines 28–34): try each encoding
in order, `break` on the first whose `pd.read_csv` call succeeds.
`attempt e` is the outcome of `pd.read_csv(uploaded_file, encoding=e,
on_bad_lines="skip")`: `none` when it raises. -/
def firstSuccess (attempt : Encoding → Option DataFrame) :
    List Encoding → Option (Encoding × DataFrame)
  | [] => none
  | e :: es =>
      match attempt e with
      | some t => some (e, t)
      | none => firstSuccess attempt es

/-- The whole CSV branch of the loader (lines 27–34): the winning encoding
together with the table it produced, or `none` when every encoding fails. -/
def loadCSV (attempt : Encoding → Option DataFrame) :
    Option (Encoding × DataFrame) :=
  firstSuccess attempt encodingsToTry

/-- The `st.success` message of the CSV branch (line 31), naming the
winning encoding. -/
def csvSuccessMessage (e : Encoding) : String :=
  "File loaded successfully as CSV using " ++ encName e ++ " encoding"

/-- The user-facing feedback of the CSV branch: the success message of the
winning encoding, or `none` when the cascade failed. -/
def loadCSVMessage (attempt : Encoding → Option DataFrame) : Option String :=
  (loadCSV attempt).map (fun p => csvSuccessMessage p.1)

/-- Outcome of the whole loader (lines 23–45): a table loaded by the CSV
branch (with its winning encoding), a table loaded by the Excel fallback,
or failure (`st.error`, line 45). -/
inductive LoadResult where
  | csv (e : Encoding) (df : DataFrame)
  | excel (df : DataFrame)
  | failure
deriving DecidableEq, Repr

/-- The loader (lines 23–45): the CSV cascade first; if every encoding
failed (`df is None`, line 37) the Excel attempt
(`pd.read_excel(uploaded_file, engine="openpyxl")`, line 39, `excelAttempt`
is `none` when it raises); if that fails too, `failure`. -/
def loadFile (attempt : Encoding → Option DataFrame)
    (excelAttempt : Option DataFrame) : LoadResult :=
  match loadCSV attempt with
  | some (e, t) => LoadResult.csv e t
  | none =>
      match excelAttempt with
      | some t => LoadResult.excel t
      | none => LoadResult.failure

/-- The table the rest of the script works on (`df` after line 46):
everything downstream runs only in the `else` branch, so a failed load
yields no table. -/
def loadedTable : LoadResult → Option DataFrame
  | LoadResult.csv _ t => some t
  | LoadResult.excel t => some t
  | LoadResult.failure => none

/-! ### Summary statistics (`df.describe`, lines 55 and 163)

The statistic *values* are floating-point aggregates; the model records,
per column appearing in the describe output, the list of statistic names
computed for it, which is what the layout claims are about. -/

/-- The statistics pandas `describe` computes for a numeric column. -/
def numericStatNames : List String :=
  ["count", "mean", "std", "min", "25%", "50%", "75%", "max"]

/-- The statistics pandas `describe` computes for a non-numeric column. -/
def categoricalStatNames : List String :=
  ["count", "unique", "top", "freq"]

/-- Which statistics `describe` computes for a column of a given dtype. -/
def statNamesFor : Dtype → List String
  | Dtype.numeric => numericStatNames
  | _ => categoricalStatNames

/-- `df.describe(include="all")` (line 55): every column appears, each with
the statistics of its own dtype. -/
def describeAll (df : DataFrame) : List (String × List String) :=
  (df.header.zip df.dtypes).map (fun p => (p.1, statNamesFor p.2))

/-- `df.describe()` (line 163): with default arguments pandas restricts to
the numeric columns; only when the frame has no numeric column at all does
it fall back to describing every column. -/
def describeDefault (df : DataFrame) : List (String × List String) :=
  if Dtype.numeric ∈ df.dtypes then
    (df.header.zip df.dtypes).filterMap
      (fun p => if p.2 = Dtype.numeric then some (p.1, numericStatNames) else none)
  else describeAll df

/-! ### Report blocks (`create_pdf`, lines 122–231) -/

/-- A chart, identified by its kind and the column(s) it draws. -/
inductive Chart where
  | histogram (col : String)
  | bar (col : String)
  | pie (col : String)
  | scatter (x y : String)
deriving DecidableEq, Repr

/-- One flowable appended to `elements`: a styled paragraph (`style` is the
stylesheet name: `Title`, `Normal`, `Heading2`), a spacer, a table of
string cells, a describe table (statistic values abstracted, see above), or
a chart image. -/
inductive Block where
  | paragraph (text : String) (style : String)
  | spacer
  | tableBlock (data : List (List String))
  | statsTable (desc : List (String × List String))
  | image (c : Chart)
deriving DecidableEq, Repr

/-- How a cell prints inside a report table (`nan` is pandas' rendering of
a null). -/
def renderCell (c : Cell) : String := c.getD "nan"

/-- Rows of cells rendered to strings for a report table. -/
def renderRows (rs : List (List Cell)) : List (List String) :=
  rs.map (fun r => r.map renderCell)

/-- Title and dataset-info blocks (lines 128–134). -/
def titleBlocks (df : DataFrame) : List Block :=
  [Block.paragraph "EDA Report" "Title",
   Block.spacer,
   Block.paragraph ("Shape: (" ++ toString df.rows.length ++ ", "
     ++ toString df.header.length ++ ")") "Normal",
   Block.paragraph ("Columns: " ++ toString df.header) "Normal",
   Block.spacer]

/-- Missing-values blocks (lines 137–145): heading, then the table headed
`Column` / `Missing Count` with one row per column. -/
def missingBlocks (df : DataFrame) : List Block :=
  [Block.paragraph "Missing Values" "Heading2",
   Block.tableBlock (["Column", "Missing Count"]
     :: (missingCounts df).map (fun p => [p.1, toString p.2])),
   Block.spacer]

/-- `dup_table = [dup_df.columns.tolist()] + dup_df.values.tolist()`
(line 152): header row followed by the duplicate rows. -/
def dupTableData (df : DataFrame) : List (List String) :=
  df.header :: renderRows (dupRows df)

/-- Duplicate-values blocks (lines 148–159): heading, count line, and —
only when duplicates exist — the sample table `Table(dup_table[:20])`
(note the slice is over the list *including* its header row). -/
def duplicateBlocks (df : DataFrame) : List Block :=
  [Block.paragraph "Duplicate Values" "Heading2",
   Block.paragraph ("Number of duplicate rows: "
     ++ toString (duplicateCount df)) "Normal"]
  ++ (if 0 < duplicateCount df then
        [Block.tableBlock ((dupTableData df).take 20)]
      else [])
  ++ [Block.spacer]

/-- Summary-statistics blocks (lines 162–171), built from `df.describe()`. -/
def statsBlocks (df : DataFrame) : List Block :=
  [Block.paragraph "Summary Statistics" "Heading2",
   Block.statsTable (describeDefault df),
   Block.spacer]

/-- Histogram section (lines 174–185): when numeric columns exist, one
heading and then per numeric column an image followed by a spacer.  The
chart title (`ax.set_title`) is drawn inside the image, not as a block. -/
def histBlocks (df : DataFrame) : List Block :=
  if numericCols df = [] then []
  else
    Block.paragraph "Histograms" "Heading2"
      :: (numericCols df).flatMap
          (fun c => [Block.image (Chart.histogram c), Block.spacer])

/-- Bar/pie section (lines 188–212): when categorical columns exist, one
heading and then per categorical column a bar image, spacer, pie image,
spacer. -/
def barPieBlocks (df : DataFrame) : List Block :=
  if catCols df = [] then []
  else
    Block.paragraph "Bar Charts & Pie Charts" "Heading2"
      :: (catCols df).flatMap
          (fun c => [Block.image (Chart.bar c), Block.spacer,
                     Block.image (Chart.pie c), Block.spacer])

/-- `combinations(numeric_cols, 2)` (line 217): ordered 2-combinations. -/
def pairCombinations : List String → List (String × String)
  | [] => []
  | x :: xs => xs.map (fun y => (x, y)) ++ pairCombinations xs

/-- Scatter section (lines 215–226): when at least two numeric columns
exist, one heading and then per numeric pair an image followed by a
spacer. -/
def scatterBlocks (df : DataFrame) : List Block :=
  if (numericCols df).length ≤ 1 then []
  else
    Block.paragraph "Scatter Plots" "Heading2"
      :: (pairCombinations (numericCols df)).flatMap
          (fun p => [Block.image (Chart.scatter p.1 p.2), Block.spacer])

/-- `create_pdf` (lines 122–231): the ordered list of blocks handed to
`doc.build(elements)`. -/
def createPdf (df : DataFrame) : List Block :=
  titleBlocks df ++ missingBlocks df ++ duplicateBlocks df
    ++ statsBlocks df ++ histBlocks df ++ barPieBlocks df ++ scatterBlocks df

/-! ### The on-screen output (lines 47–68)

Only the parts the claims mention are modelled: the summary statistics
(line 55), and the duplicate-values section (lines 63–68). -/

/-- The on-screen summary statistics (line 55): `df.describe(include="all")`. -/
def displayStats (df : DataFrame) : List Block :=
  [Block.paragraph "Summary Statistics" "Heading2",
   Block.statsTable (describeAll df)]

/-- The on-screen duplicate-values section (lines 63–68): subheader, count
line, and — only when duplicates exist — the duplicate rows themselves. -/
def displayDup (df : DataFrame) : List Block :=
  [Block.paragraph "Duplicate Values" "Heading2",
   Block.paragraph ("Number of duplicate rows: "
     ++ toString (duplicateCount df)) "Normal"]
  ++ (if 0 < duplicateCount df then
        [Block.paragraph "Duplicate rows:" "Normal",
         Block.tableBlock (renderRows (dupRows df))]
      else [])

/-- The interactive histogram (lines 73–77): for any numeric column the
user selects, an image is drawn unconditionally; a non-numeric column is
never offered. -/
def interactiveHistogram (df : DataFrame) (sel : String) : Option Block :=
  if sel ∈ numericCols df then some (Block.image (Chart.histogram sel))
  else none

/-! ### Spec-side description of the report layout

Written from the (amended) specification wording, independently of
`create_pdf`, for the refinement theorem on the block order: a chart group
is empty when it has no charts and otherwise consists of one heading
paragraph followed by each image with a spacer after it. -/

/-- One chart group of the report: nothing when there are no charts,
otherwise a single group heading and then every image followed by a
spacer. -/
def chartGroup (heading : String) (charts : List Chart) : List Block :=
  match charts with
  | [] => []
  | _ :: _ =>
      Block.paragraph heading "Heading2"
        :: charts.flatMap (fun ch => [Block.image ch, Block.spacer])

/-- The chart part of the report, per the spec: histograms of every numeric
column, then bar and pie charts of every categorical column, then scatter
plots of every ordered pair of numeric columns, each kind as one group. -/
def specCharts (df : DataFrame) : List Block :=
  chartGroup "Histograms" ((numericCols df).map Chart.histogram)
    ++ chartGroup "Bar Charts & Pie Charts"
        ((catCols df).flatMap (fun c => [Chart.bar c, Chart.pie c]))
    ++ chartGroup "Scatter Plots"
        ((pairCombinations (numericCols df)).map (fun p => Chart.scatter p.1 p.2))

/-- The report layout per the amended claim: title, dataset shape/columns,
missing-values table, duplicate-values summary with the bounded sample
table exactly when duplicates exist, summary-statistics table, then the
chart groups. -/
def specReportLayout (df : DataFrame) : List Block :=
  [Block.paragraph "EDA Report" "Title",
   Block.spacer,
   Block.paragraph ("Shape: (" ++ toString df.rows.length ++ ", "
     ++ toString df.header.length ++ ")") "Normal",
   Block.paragraph ("Columns: " ++ toString df.header) "Normal",
   Block.spacer,
   Block.paragraph "Missing Values" "Heading2",
   Block.tableBlock (["Column", "Missing Count"]
     :: (missingCounts df).map (fun p => [p.1, toString p.2])),
   Block.spacer,
   Block.paragraph "Duplicate Values" "Heading2",
   Block.paragraph ("Number of duplicate rows: "
     ++ toString (duplicateCount df)) "Normal"]
  ++ (if 0 < duplicateCount df then
        [Block.tableBlock ((dupTableData df).take 20)]
      else [])
  ++ [Block.spacer,
      Block.paragraph "Summary Statistics" "Heading2",
      Block.statsTable (describeDefault df),
      Block.spacer]
  ++ specCharts df

/-! ### Concrete inputs used by witnesses and counterexamples -/

/-- A one-column, one-row table used as the payload of loader witnesses. -/
def exDf : DataFrame :=
  { header := ["a"], dtypes := [Dtype.numeric], rows := [[some "1"]] }

/-- A CSV attempt outcome where only the latin1 decoding succeeds. -/
def exAttemptLatin1 : Encoding → Option DataFrame :=
  fun e => if e = Encoding.latin1 then some exDf else none

/-- A table with two numeric columns and one row (so the report has two
histogram images and one scatter image). -/
def exDfTwoNum : DataFrame :=
  { header := ["a", "b"],
    dtypes := [Dtype.numeric, Dtype.numeric],
    rows := [[some "1", some "2"]] }

/-- A table of 21 identical rows: 20 of them are duplicate rows. -/
def exDf21 : DataFrame :=
  { header := ["a"], dtypes := [Dtype.numeric],
    rows := List.replicate 21 [some "1"] }

/-- A table with one numeric and one categorical column. -/
def exDfMixed : DataFrame :=
  { header := ["n", "c"],
    dtypes := [Dtype.numeric, Dtype.categorical],
    rows := [[some "1", some "x"]] }

/-- A table whose single numeric column is entirely null. -/
def exDfAllNull : DataFrame :=
  { header := ["n"], dtypes := [Dtype.numeric],
    rows := [[none], [none], [none]] }

/-- A table with neither numeric nor categorical columns (e.g. a single
boolean column), so the report gets zero charts. -/
def exDfNoCharts : DataFrame :=
  { header := ["flag"], dtypes := [Dtype.other],
    rows := [[some "True"], [some "False"]] }

/-! ### Helper lemmas -/

/-- A successful run of the encoding loop splits the encoding list into
failing earlier attempts, the winner, and the untried rest. -/
lemma firstSuccess_eq_some {attempt : Encoding → Option DataFrame}
    {l : List Encoding} {e : Encoding} {t : DataFrame}
    (h : firstSuccess attempt l = some (e, t)) :
    ∃ pre post, l = pre ++ e :: post
      ∧ (∀ x ∈ pre, attempt x = none) ∧ attempt e = some t := by
  induction l with
  | nil => simp [firstSuccess] at h
  | cons x xs ih =>
      rw [firstSuccess] at h
      cases hx : attempt x with
      | some t' =>
          rw [hx] at h
          obtain ⟨rfl, rfl⟩ : x = e ∧ t' = t := by
            simpa [Prod.ext_iff] using h
          exact ⟨[], xs, rfl, by simp, hx⟩
      | none =>
          rw [hx] at h
          obtain ⟨pre, post, rfl, hpre, he⟩ := ih h
          exact ⟨x :: pre, post, rfl, by
            intro y hy
            rcases List.mem_cons.mp hy with rfl | hy'
            · exact hx
            · exact hpre y hy', he⟩

/-- The encoding loop fails exactly when every attempt fails. -/
lemma firstSuccess_eq_none_iff (attempt : Encoding → Option DataFrame)
    (l : List Encoding) :
    firstSuccess attempt l = none ↔ ∀ e ∈ l, attempt e = none := by
  induction l with
  | nil => simp [firstSuccess]
  | cons x xs ih =>
      rw [firstSuccess]
      cases hx : attempt x with
      | some t => simp [hx]
      | none => simp [hx, ih]

/-- The duplicate flags are one per row. -/
lemma duplicatedAux_length (seen rows : List (List Cell)) :
    (duplicatedAux seen rows).length = rows.length := by
  induction rows generalizing seen with
  | nil => rfl
  | cons r rs ih => simp [duplicatedAux, ih]

/-- A row's duplicate flag is set exactly when the row occurs among the
already-seen rows or earlier in the remaining list. -/
lemma duplicatedAux_getElem (seen rows : List (List Cell)) (i : Nat)
    (r : List Cell) (h : rows[i]? = some r) :
    ((duplicatedAux seen rows)[i]? = some true
      ↔ (r ∈ seen ∨ ∃ j, j < i ∧ rows[j]? = some r)) := by
  induction rows generalizing seen i with
  | nil => simp at h
  | cons x xs ih =>
      cases i with
      | zero =>
          obtain rfl : x = r := by simpa using h
          simp [duplicatedAux]
      | succ n =>
          rw [List.getElem?_cons_succ] at h
          rw [show duplicatedAux seen (x :: xs)
                = (decide (x ∈ seen)) :: duplicatedAux (x :: seen) xs from rfl,
              List.getElem?_cons_succ, ih (x :: seen) n h]
          constructor
          · rintro (hx | ⟨j, hj, hget⟩)
            · rcases List.mem_cons.mp hx with heq | hs
              · exact Or.inr ⟨0, Nat.succ_pos n, by simp [heq.symm]⟩
              · exact Or.inl hs
            · exact Or.inr ⟨j + 1, by omega, by simpa using hget⟩
          · rintro (hs | ⟨j, hj, hget⟩)
            · exact Or.inl (List.mem_cons_of_mem _ hs)
            · cases j with
              | zero =>
                  obtain rfl : x = r := by simpa using hget
                  exact Or.inl (List.mem_cons_self _ _)
              | succ k =>
                  exact Or.inr ⟨k, by omega, by simpa using hget⟩

/-- How many rows survive parsing: exactly the lines whose field count does
not exceed the header width. -/
lemma parsedRows_length (ncols : Nat) (lines : List String) :
    (parsedRows ncols lines).length
      = lines.countP (fun l => !decide (ncols < (splitFields l).length)) := by
  induction lines with
  | nil => rfl
  | cons l ls ih =>
      by_cases hc : ncols < (splitFields l).length
      · simp [parsedRows, parseRow, hc, List.countP_cons]
        simpa [parsedRows] using ih
      · simp [parsedRows, parseRow, hc, List.countP_cons]
        simpa [parsedRows] using ih

/-- Splitting a count by a predicate: kept plus dropped lines make up all
lines. -/
lemma countP_not_add_countP {α : Type} (p : α → Bool) (l : List α) :
    l.countP (fun a => !p a) + l.countP p = l.length := by
  induction l with
  | nil => rfl
  | cons a as ih =>
      rw [List.countP_cons, List.countP_cons, List.length_cons]
      cases h : p a <;> simp [h] <;> omega

/-! ### The claims -/

/-- C1: the loader tries exactly the ordered encoding list UTF-8,
UTF-8-with-signature, Latin-1, ISO-8859-1, Windows-1252; when the CSV
branch succeeds, the winning encoding's attempt produced the table, every
encoding earlier in the list failed (the loop breaks at the first success,
so no later encoding is attempted), and the success message reported to the
user names the winning encoding. -/
theorem C1_encoding_cascade (attempt : Encoding → Option DataFrame)
    (e : Encoding) (t : DataFrame)
    (h : loadCSV attempt = some (e, t)) :
    encodingsToTry = [Encoding.utf8, Encoding.utf8sig, Encoding.latin1,
        Encoding.iso8859_1, Encoding.cp1252]
    ∧ attempt e = some t
    ∧ (∃ pre post, encodingsToTry = pre ++ e :: post
        ∧ ∀ x ∈ pre, attempt x = none)
    ∧ loadCSVMessage attempt
        = some ("File loaded successfully as CSV using "
            ++ encName e ++ " encoding") := by
  obtain ⟨pre, post, hsplit, hpre, he⟩ := firstSuccess_eq_some h
  refine ⟨rfl, he, ⟨pre, post, hsplit, hpre⟩, ?_⟩
  rw [loadCSVMessage, h]
  rfl

/-- C1 witness: with an attempt succeeding only under latin1, the cascade
returns latin1 and the conclusions hold at that input. -/
theorem C1_encoding_cascade_witness :
    encodingsToTry = [Encoding.utf8, Encoding.utf8sig, Encoding.latin1,
        Encoding.iso8859_1, Encoding.cp1252]
    ∧ exAttemptLatin1 Encoding.latin1 = some exDf
    ∧ (∃ pre post, encodingsToTry = pre ++ Encoding.latin1 :: post
        ∧ ∀ x ∈ pre, exAttemptLatin1 x = none)
    ∧ loadCSVMessage exAttemptLatin1
        = some ("File loaded successfully as CSV using "
            ++ encName Encoding.latin1 ++ " encoding") :=
  C1_encoding_cascade exAttemptLatin1 Encoding.latin1 exDf rfl

/-- C2: a row is flagged duplicate exactly when some earlier row has the
same cell values (so a first occurrence is never flagged and every later
identical row is), the flags are one per row (so `duplicate_count` counts
exactly the flagged rows), and the concrete scenario: the CSV bytes
`a,b\n1,x\n2,y\n1,x\n` load to columns `[a, b]`, 3 rows, duplicate count 1
and missing counts `a = 0`, `b = 0`. -/
theorem C2_duplicate_detection :
    (∀ rows : List (List Cell), (duplicatedFlags rows).length = rows.length)
    ∧ (∀ (rows : List (List Cell)) (i : Nat) (r : List Cell),
        rows[i]? = some r →
        ((duplicatedFlags rows)[i]? = some true
          ↔ ∃ j, j < i ∧ rows[j]? = some r))
    ∧ (readCSVString "a,b\n1,x\n2,y\n1,x\n").map
        (fun t => (t.header, t.rows.length, duplicateCount t, missingCounts t))
      = some (["a", "b"], 3, 1, [("a", 0), ("b", 0)]) := by
  refine ⟨fun rows => duplicatedAux_length [] rows, ?_, by decide⟩
  intro rows i r h
  simpa [duplicatedFlags] using duplicatedAux_getElem [] rows i r h

/-- C2 witness: in the scenario's three rows, the third row (an exact
repeat of the first) is flagged as a duplicate. -/
theorem C2_duplicate_detection_witness :
    (duplicatedFlags
        [[some "1", some "x"], [some "2", some "y"],
         [some "1", some "x"]])[2]? = some true :=
  (C2_duplicate_detection.2.1
      [[some "1", some "x"], [some "2", some "y"], [some "1", some "x"]]
      2 [some "1", some "x"] rfl).mpr ⟨0, by omega, rfl⟩

/-- C3: malformed rows (more fields than the header) are skipped without
failing the parse: any input whose lines contain 100 well-formed and 3
malformed rows yields a table of exactly 100 rows (of 103 data lines). -/
theorem C3_malformed_rows_skipped (ncols : Nat) (lines : List String)
    (hgood : lines.countP
        (fun l => !decide (ncols < (splitFields l).length)) = 100)
    (hbad : lines.countP
        (fun l => decide (ncols < (splitFields l).length)) = 3) :
    (parsedRows ncols lines).length = 100 ∧ lines.length = 103 := by
  refine ⟨by rw [parsedRows_length, hgood], ?_⟩
  have h := countP_not_add_countP
    (fun l => decide (ncols < (splitFields l).length)) lines
  omega

set_option maxRecDepth 4000 in
/-- C3 witness: 100 two-field lines and 3 three-field lines against a
two-column header parse to exactly 100 rows. -/
theorem C3_malformed_rows_skipped_witness :
    (parsedRows 2
        (List.replicate 100 "1,2" ++ List.replicate 3 "1,2,3")).length = 100
    ∧ (List.replicate 100 "1,2" ++ List.replicate 3 "1,2,3" :
        List String).length = 103 :=
  C3_malformed_rows_skipped 2
    (List.replicate 100 "1,2" ++ List.replicate 3 "1,2,3")
    (by decide) (by decide)

/-- C7: the loader falls back to the spreadsheet attempt exactly when every
text encoding fails, the load fails only when the spreadsheet attempt fails
too, and a failed load yields no table for the downstream stages. -/
theorem C7_excel_fallback (attempt : Encoding → Option DataFrame)
    (excelAttempt : Option DataFrame) :
    (loadFile attempt excelAttempt = LoadResult.failure
      ↔ ((∀ e ∈ encodingsToTry, attempt e = none) ∧ excelAttempt = none))
    ∧ (∀ t, (∀ e ∈ encodingsToTry, attempt e = none) →
        excelAttempt = some t →
        loadFile attempt excelAttempt = LoadResult.excel t)
    ∧ (loadFile attempt excelAttempt = LoadResult.failure →
        loadedTable (loadFile attempt excelAttempt) = none) := by
  cases hcsv : firstSuccess attempt encodingsToTry with
  | some p =>
      obtain ⟨e, t⟩ := p
      have hne : ¬ ∀ e ∈ encodingsToTry, attempt e = none := by
        intro hall
        rw [← firstSuccess_eq_none_iff attempt encodingsToTry] at hall
        rw [hall] at hcsv
        exact Option.noConfusion hcsv
      refine ⟨?_, ?_, ?_⟩
      · simp [loadFile, loadCSV, hcsv, hne]
      · intro t' hall _
        exact absurd hall hne
      · intro hfail
        rw [hfail]
        rfl
  | none =>
      have hall : ∀ e ∈ encodingsToTry, attempt e = none :=
        (firstSuccess_eq_none_iff attempt encodingsToTry).mp hcsv
      cases excelAttempt with
      | some t =>
          refine ⟨?_, ?_, ?_⟩
          · simp [loadFile, loadCSV, hcsv]
          · intro t' _ hsome
            obtain rfl : t = t' := by simpa using hsome
            simp [loadFile, loadCSV, hcsv]
          · intro hfail
            rw [hfail]
            rfl
      | none =>
          refine ⟨?_, ?_, ?_⟩
          · constructor
            · intro _
              exact ⟨hall, rfl⟩
            · intro _
              simp [loadFile, loadCSV, hcsv]
          · intro t' _ hsome
            exact Option.noConfusion hsome
          · intro hfail
            rw [hfail]
            rfl

/-- C7 witness: when every encoding attempt and the spreadsheet attempt
fail, the load fails and no table reaches the downstream stages. -/
theorem C7_excel_fallback_witness :
    loadFile (fun _ => none) none = LoadResult.failure
    ∧ loadedTable (loadFile (fun _ => none) none) = none := by
  have h := C7_excel_fallback (fun _ => none) none
  have hfail : loadFile (fun _ => none) none = LoadResult.failure :=
    h.1.mpr ⟨fun _ _ => rfl, rfl⟩
  exact ⟨hfail, h.2.2 hfail⟩

/-- The histogram section is the "Histograms" chart group. -/
lemma histBlocks_eq_group (df : DataFrame) :
    histBlocks df
      = chartGroup "Histograms" ((numericCols df).map Chart.histogram) := by
  cases hn : numericCols df with
  | nil => simp [histBlocks, hn, chartGroup]
  | cons c cs => simp [histBlocks, hn, chartGroup, List.flatMap_map]

/-- A chart group with at least one chart: heading, then image/spacer
pairs. -/
lemma chartGroup_cons (h : String) (ch : Chart) (rest : List Chart) :
    chartGroup h (ch :: rest)
      = Block.paragraph h "Heading2"
          :: (ch :: rest).flatMap (fun x => [Block.image x, Block.spacer]) :=
  rfl

/-- The bar/pie section is the "Bar Charts & Pie Charts" chart group. -/
lemma barPieBlocks_eq_group (df : DataFrame) :
    barPieBlocks df
      = chartGroup "Bar Charts & Pie Charts"
          ((catCols df).flatMap (fun c => [Chart.bar c, Chart.pie c])) := by
  cases hc : catCols df with
  | nil => simp [barPieBlocks, hc, chartGroup]
  | cons c cs =>
      have hsc : (c :: cs).flatMap (fun x => [Chart.bar x, Chart.pie x])
          = Chart.bar c :: Chart.pie c
              :: cs.flatMap (fun x => [Chart.bar x, Chart.pie x]) := by
        simp
      rw [barPieBlocks, hc, hsc, chartGroup_cons, ← hsc, List.flatMap_assoc]
      simp

/-- There is no 2-combination exactly when fewer than two columns exist. -/
lemma pairCombinations_eq_nil_iff (l : List String) :
    pairCombinations l = [] ↔ l.length ≤ 1 := by
  match l with
  | [] => simp [pairCombinations]
  | [x] => simp [pairCombinations]
  | x :: y :: xs =>
      simp only [pairCombinations, List.map_cons, List.cons_append,
        List.length_cons]
      constructor
      · intro h
        exact absurd h (List.cons_ne_nil _ _)
      · omega

/-- The scatter section is the "Scatter Plots" chart group. -/
lemma scatterBlocks_eq_group (df : DataFrame) :
    scatterBlocks df
      = chartGroup "Scatter Plots"
          ((pairCombinations (numericCols df)).map
            (fun p => Chart.scatter p.1 p.2)) := by
  by_cases h : (numericCols df).length ≤ 1
  · have hnil : pairCombinations (numericCols df) = [] :=
      (pairCombinations_eq_nil_iff _).mpr h
    simp [scatterBlocks, h, hnil, chartGroup]
  · have hne : pairCombinations (numericCols df) ≠ [] := by
      intro hnil
      exact h ((pairCombinations_eq_nil_iff _).mp hnil)
    obtain ⟨p, ps, hps⟩ := List.exists_cons_of_ne_nil hne
    simp [scatterBlocks, h, hps, chartGroup, List.flatMap_map]

/-- C4 counterexample: in the report for a table of two numeric columns,
the second histogram image (index 17) is immediately preceded by a spacer
(index 16), not by a caption paragraph, so images are not each preceded by
a caption paragraph. -/
theorem C4_counterexample :
    (createPdf exDfTwoNum)[17]? = some (Block.image (Chart.histogram "b"))
    ∧ (createPdf exDfTwoNum)[16]? = some Block.spacer
    ∧ (∀ text style, Block.spacer ≠ Block.paragraph text style) :=
  ⟨by decide, by decide, fun _ _ h => nomatch h⟩

/-- C4 (amended): the serialized blocks appear in the fixed order title,
dataset shape/columns, missing-values table, duplicate-values summary (with
the bounded sample table exactly when duplicates exist), summary-statistics
table, then the chart images grouped by kind — each group introduced by one
heading paragraph and each image followed by a spacer; images are not
individually preceded by caption paragraphs (chart titles are drawn inside
the images). -/
theorem C4_block_order (df : DataFrame) :
    createPdf df = specReportLayout df := by
  rw [createPdf, specReportLayout, specCharts, histBlocks_eq_group,
    barPieBlocks_eq_group, scatterBlocks_eq_group, titleBlocks,
    missingBlocks, duplicateBlocks, statsBlocks]
  simp

/-- C5: evaluation at a table of 21 identical rows (20 duplicate rows):
the report's sample table is the 20-element slice of header row plus
duplicate rows, so it holds the header and only the *first 19* of the 20
duplicate rows — not the first 20 the comment promises. -/
theorem C5_sample_cap_off_by_one :
    duplicateCount exDf21 = 20
    ∧ Block.tableBlock ((dupTableData exDf21).take 20) ∈ duplicateBlocks exDf21
    ∧ (dupRows exDf21).length = 20
    ∧ ((dupTableData exDf21).take 20).length = 20
    ∧ ((dupTableData exDf21).take 20).tail
        = renderRows ((dupRows exDf21).take 19)
    ∧ ((dupTableData exDf21).take 20).tail.length = 19 := by
  refine ⟨by decide, ?_, by decide, by decide, by decide, by decide⟩
  simp [duplicateBlocks, show (0 : Nat) < duplicateCount exDf21 by decide]

/-- C6 counterexample: for a table with numeric column `n` and categorical
column `c`, the on-screen statistics (describe with `include="all"`) carry
both columns, but the report's summary-statistics table (default describe)
carries only `n`: the categorical column gets no statistics in the exported
report. -/
theorem C6_counterexample :
    Block.statsTable [("n", numericStatNames), ("c", categoricalStatNames)]
        ∈ displayStats exDfMixed
    ∧ describeAll exDfMixed
        = [("n", numericStatNames), ("c", categoricalStatNames)]
    ∧ describeDefault exDfMixed = [("n", numericStatNames)]
    ∧ statsBlocks exDfMixed
        = [Block.paragraph "Summary Statistics" "Heading2",
           Block.statsTable [("n", numericStatNames)], Block.spacer]
    ∧ ("c", categoricalStatNames) ∉ describeDefault exDfMixed := by decide

/-- C6 (amended): the on-screen statistics branch on inferred type — every
column appears with the statistics of its dtype (numeric: count, mean, std,
min, quartiles, max; otherwise: count, unique, top, freq) — while the
exported report's summary-statistics table covers only the numeric columns
whenever at least one exists, and falls back to all columns only when no
numeric column exists. -/
theorem C6_stats_branching (df : DataFrame) :
    (∀ p ∈ df.header.zip df.dtypes, (p.1, statNamesFor p.2) ∈ describeAll df)
    ∧ Block.statsTable (describeAll df) ∈ displayStats df
    ∧ Block.statsTable (describeDefault df) ∈ statsBlocks df
    ∧ (Dtype.numeric ∈ df.dtypes →
        ∀ q ∈ describeDefault df,
          q.2 = numericStatNames ∧ q.1 ∈ numericCols df)
    ∧ (Dtype.numeric ∈ df.dtypes →
        ∀ col ∈ numericCols df, (col, numericStatNames) ∈ describeDefault df)
    ∧ (Dtype.numeric ∉ df.dtypes → describeDefault df = describeAll df) := by
  refine ⟨?_, by simp [displayStats], by simp [statsBlocks], ?_, ?_, ?_⟩
  · intro p hp
    exact List.mem_map.mpr ⟨p, hp, rfl⟩
  · intro hnum q hq
    rw [describeDefault, if_pos hnum] at hq
    obtain ⟨p, hp, hpq⟩ := List.mem_filterMap.mp hq
    by_cases h2 : p.2 = Dtype.numeric
    · rw [if_pos h2] at hpq
      obtain rfl : (p.1, numericStatNames) = q := by simpa using hpq
      refine ⟨rfl, ?_⟩
      exact List.mem_filterMap.mpr ⟨p, hp, by rw [if_pos h2]⟩
    · rw [if_neg h2] at hpq
      exact absurd hpq (Option.noConfusion)
  · intro hnum col hcol
    obtain ⟨p, hp, hpc⟩ := List.mem_filterMap.mp hcol
    by_cases h2 : p.2 = Dtype.numeric
    · rw [if_pos h2] at hpc
      obtain rfl : p.1 = col := by simpa using hpc
      rw [describeDefault, if_pos hnum]
      exact List.mem_filterMap.mpr ⟨p, hp, by rw [if_pos h2]⟩
    · rw [if_neg h2] at hpc
      exact absurd hpc (Option.noConfusion)
  · intro hnone
    rw [describeDefault, if_neg hnone]

/-- C6 witness: in the mixed table, the numeric column does appear in the
report's summary-statistics table. -/
theorem C6_stats_branching_witness :
    ("n", numericStatNames) ∈ describeDefault exDfMixed :=
  (C6_stats_branching exDfMixed).2.2.2.2.1 (by decide) "n" (by decide)

/-- C8 counterexample: for a numeric column whose three cells are all null,
the report contains a histogram image for it and the interactive path
renders one too — no failure of any kind occurs, contradicting the claimed
`InvalidChartRequest`. -/
theorem C8_counterexample :
    missingInColumn exDfAllNull 0 = 3
    ∧ exDfAllNull.rows.length = 3
    ∧ Block.image (Chart.histogram "n") ∈ createPdf exDfAllNull
    ∧ interactiveHistogram exDfAllNull "n"
        = some (Block.image (Chart.histogram "n")) := by decide

/-- C8 (amended): histogram rendering performs no null-data validation:
every numeric column — an all-null one included — yields a histogram image
block in the report, and the interactive path renders an image for any
selected numeric column; the code has no `InvalidChartRequest`-style
failure path. -/
theorem C8_histogram_renders_any_numeric (df : DataFrame) (c : String)
    (h : c ∈ numericCols df) :
    Block.image (Chart.histogram c) ∈ createPdf df
    ∧ interactiveHistogram df c = some (Block.image (Chart.histogram c)) := by
  have hne : numericCols df ≠ [] := by
    intro hnil
    rw [hnil] at h
    exact absurd h (List.not_mem_nil c)
  have hmem : Block.image (Chart.histogram c) ∈ histBlocks df := by
    rw [histBlocks, if_neg hne]
    exact List.mem_cons_of_mem _
      (List.mem_flatMap.mpr ⟨c, h, by simp⟩)
  constructor
  · simp only [createPdf, List.mem_append]
    tauto
  · simp [interactiveHistogram, h]

/-- C8 witness: the amended statement at the all-null numeric column. -/
theorem C8_histogram_renders_any_numeric_witness :
    Block.image (Chart.histogram "n") ∈ createPdf exDfAllNull
    ∧ interactiveHistogram exDfAllNull "n"
        = some (Block.image (Chart.histogram "n")) :=
  C8_histogram_renders_any_numeric exDfAllNull "n" (by decide)

/-- C9: for any loaded table (at least one column) with neither numeric nor
categorical columns, the report is still assembled: a non-empty block list
starting with the title and containing the summary-statistics section, and
with zero chart images. -/
theorem C9_report_without_charts (df : DataFrame)
    (_hh : df.header ≠ []) (hn : numericCols df = [])
    (hc : catCols df = []) :
    createPdf df ≠ []
    ∧ (createPdf df).head? = some (Block.paragraph "EDA Report" "Title")
    ∧ Block.paragraph "Summary Statistics" "Heading2" ∈ createPdf df
    ∧ Block.statsTable (describeDefault df) ∈ createPdf df
    ∧ ∀ ch : Chart, Block.image ch ∉ createPdf df := by
  have hhist : histBlocks df = [] := by simp [histBlocks, hn]
  have hbp : barPieBlocks df = [] := by simp [barPieBlocks, hc]
  have hsc : scatterBlocks df = [] := by simp [scatterBlocks, hn]
  by_cases hdup : 0 < duplicateCount df <;>
    simp [createPdf, hhist, hbp, hsc, titleBlocks, missingBlocks,
      duplicateBlocks, statsBlocks, hdup]

/-- C9 witness: a table with a single boolean-like column (neither numeric
nor categorical) still yields a non-empty report with title and statistics
sections and no image block. -/
theorem C9_report_without_charts_witness :
    createPdf exDfNoCharts ≠ []
    ∧ (createPdf exDfNoCharts).head?
        = some (Block.paragraph "EDA Report" "Title")
    ∧ Block.paragraph "Summary Statistics" "Heading2" ∈ createPdf exDfNoCharts
    ∧ Block.image (Chart.histogram "flag") ∉ createPdf exDfNoCharts := by
  have h := C9_report_without_charts exDfNoCharts
    (by decide) (by decide) (by decide)
  exact ⟨h.1, h.2.1, h.2.2.1, h.2.2.2.2 (Chart.histogram "flag")⟩

/-- C10: both in the report and on screen, a duplicate-rows sample table is
present exactly when the duplicate count is positive; with zero duplicates
only the count line is emitted. -/
theorem C10_dup_sample_iff_duplicates (df : DataFrame) :
    ((∃ d, Block.tableBlock d ∈ duplicateBlocks df)
      ↔ 0 < duplicateCount df)
    ∧ ((∃ d, Block.tableBlock d ∈ displayDup df)
      ↔ 0 < duplicateCount df) := by
  by_cases h : 0 < duplicateCount df
  · refine ⟨⟨fun _ => h, fun _ => ?_⟩, ⟨fun _ => h, fun _ => ?_⟩⟩
    · exact ⟨(dupTableData df).take 20, by simp [duplicateBlocks, h]⟩
    · exact ⟨renderRows (dupRows df), by simp [displayDup, h]⟩
  · refine ⟨⟨?_, fun h' => absurd h' h⟩, ⟨?_, fun h' => absurd h' h⟩⟩
    · rintro ⟨d, hd⟩
      simp [duplicateBlocks, h] at hd
    · rintro ⟨d, hd⟩
      simp [displayDup, h] at hd

end EdaApp
